import Mathlib

/-!
Verification of the gravitymomidon backend and frontend helpers.

This file shallowly embeds the relevant request handlers of
server/index.js (the /api/chat handler, the /api/admin/approve handler,
and the Twilio /webhooks/twilio/voice and /webhooks/twilio/status
webhooks) and of src/App.tsx (the useAudioVAD hook and the
authenticatedFetch helper), and proves or refutes the frozen claims
about them.

Conventions of the embedding:
- JavaScript truthiness on nullable values is made explicit: a field
  that may be null/undefined is an Option, and the JavaScript idiom
  `x || d` is the function jsOrNat / jsOrInt / jsOrStr (note that the
  number 0 and the empty string are falsy, so `x || d` yields d for
  them as well, not only for null).
- A supabase query ending in .single() yields a row exactly when
  precisely one row matches the filter, and an error otherwise; this
  is the function singleRow.
- Database writes are modelled as pure transformations of a DB value
  (lists of rows); HTTP replies as inductive datatypes.
-/

namespace SmartReception

/-- JavaScript `x || d` on a nullable number field (null, undefined and
0 are falsy). -/
def jsOrNat : Option Nat → Nat → Nat
  | none, d => d
  | some v, d => if v = 0 then d else v

/-- JavaScript `x || d` on a nullable integer (null, undefined and 0
are falsy). -/
def jsOrInt : Option Int → Int → Int
  | none, d => d
  | some v, d => if v = 0 then d else v

/-- JavaScript `x || d` on a nullable string field (null, undefined and
the empty string are falsy). -/
def jsOrStr : Option String → String → String
  | none, d => d
  | some s, d => if s = "" then d else s

/-- Truthiness of a nullable string: false for null/undefined and for
the empty string. -/
def strTruthy : Option String → Bool
  | none => false
  | some s => s ≠ ""

/-- Numeric value of a list of decimal digit characters. -/
def digitsVal (cs : List Char) : Nat :=
  cs.foldl (fun a c => a * 10 + (c.toNat - 48)) 0

/-- The StrWhiteSpaceChar set JavaScript parseInt skips: WhiteSpace
(TAB, VT, FF, SP, NBSP, ZWNBSP and the Unicode Space_Separator
category) plus LineTerminator (LF, CR, LS, PS). -/
def isJsWhitespace (c : Char) : Bool :=
  c = '\t' || c = '\n' || c = '\x0b' || c = '\x0c' || c = '\x0d' || c = ' ' ||
  c = '\xa0' || c = '\u1680' || ('\u2000' ≤ c && c ≤ '\u200a') ||
  c = '\u2028' || c = '\u2029' || c = '\u202f' || c = '\u205f' ||
  c = '\u3000' || c = '\ufeff'

/-- Hexadecimal digit test, for the radix-16 branch of parseInt. -/
def isHexDigit (c : Char) : Bool :=
  c.isDigit || ('a' ≤ c && c ≤ 'f') || ('A' ≤ c && c ≤ 'F')

/-- Numeric value of one hexadecimal digit character. -/
def hexVal (c : Char) : Nat :=
  if c.isDigit then c.toNat - 48
  else if 'a' ≤ c && c ≤ 'f' then c.toNat - 87
  else c.toNat - 55

/-- Numeric value of a list of hexadecimal digit characters. -/
def hexDigitsVal (cs : List Char) : Nat :=
  cs.foldl (fun a c => a * 16 + hexVal c) 0

/-- JavaScript parseInt on a string with no radix argument: skip
leading JavaScript whitespace, take an optional sign, then auto-detect
the radix: a 0x or 0X prefix selects hexadecimal (the maximal run of
hex digits after the prefix), anything else decimal (the maximal run
of decimal digits; a plain leading 0 is just a digit, there is no
octal auto-detection in modern JavaScript).  none models NaN (no
digits at all in the selected radix). -/
def parseIntJS (s : String) : Option Int :=
  let t := s.toList.dropWhile isJsWhitespace
  let signed : Int × List Char :=
    match t with
    | '-' :: r => (-1, r)
    | '+' :: r => (1, r)
    | r => (1, r)
  let hexPrefix : Bool :=
    match signed.2 with
    | '0' :: c :: _ => c = 'x' || c = 'X'
    | _ => false
  if hexPrefix then
    let ds := (signed.2.drop 2).takeWhile isHexDigit
    if ds.isEmpty then none
    else some (signed.1 * (hexDigitsVal ds : Int))
  else
    let ds := signed.2.takeWhile Char.isDigit
    if ds.isEmpty then none
    else some (signed.1 * (digitsVal ds : Int))

/-- The `parseInt(CallDuration) || 0` computation of the status
webhook (NaN and 0 both give 0, as does an absent field). -/
def durValOf : Option String → Int
  | none => 0
  | some d => jsOrInt (parseIntJS d) 0

/-- A row of the businesses table.  Fields that the handlers read
through JavaScript truthiness checks are Options. -/
structure Business where
  id : Nat
  user_id : Nat
  business_name : String
  services : String
  tone : String
  working_hours : String
  greeting : Option String
  twilio_phone_number : Option String
  subscription_plan : Option String
  minutes_used : Option Nat
  minutes_limit : Option Nat
deriving Repr, DecidableEq

/-- A row of the call_logs table. -/
structure CallLog where
  business_id : Nat
  user_id : Nat
  call_sid : String
  from_number : String
  to_number : String
  status : String
  transcript : List (String × String)
  duration : Option Int
deriving Repr, DecidableEq

/-- A row of the payment_requests table. -/
structure PaymentRequest where
  id : Nat
  user_id : Nat
  email : Option String
  business_id : Nat
  plan : String
  amount : Nat
  payment_method : String
  payment_reference : String
  status : String
deriving Repr, DecidableEq

/-- The database state the handlers read and write. -/
structure DB where
  businesses : List Business
  call_logs : List CallLog
  payment_requests : List PaymentRequest
deriving Repr, DecidableEq

/-- A supabase select ... .single(): a row is returned exactly when
precisely one row matches; zero or several matches give an error,
which every handler treats like an absent row. -/
def singleRow {α : Type} (p : α → Bool) (rows : List α) : Option α :=
  match rows.filter p with
  | [x] => some x
  | _ => none

/-- One TwiML verb of a webhook reply (the handlers emit flat verb
sequences). -/
inductive TwimlVerb where
  | say (voice : Option String) (text : String)
  | hangup
  | gather (input : String) (action : String) (language : String)
  | redirect (url : String)
deriving Repr, DecidableEq

/-- Result of the voice webhook: the TwiML reply and the database
state after the handler ran. -/
structure VoiceResult where
  twiml : List TwimlVerb
  db : DB
deriving Repr, DecidableEq

/-- The POST /webhooks/twilio/voice handler.  It looks the business up
by its Twilio number, blocks the call when minutes_used (`|| 0`) has
reached minutes_limit (`|| 10`), and otherwise logs a ringing call and
replies with the greeting and a speech gather. -/
def voiceWebhook (db : DB) (To From CallSid : String) : VoiceResult :=
  match singleRow (fun b => b.twilio_phone_number == some To) db.businesses with
  | none =>
      { twiml := [.say none "Sorry, this number is not configured.", .hangup]
        db := db }
  | some business =>
      let used := jsOrNat business.minutes_used 0
      let limit := jsOrNat business.minutes_limit 10
      if used ≥ limit then
        { twiml := [.say none "I am sorry, this business has reached its monthly call limit. Please contact them via email or check their website.", .hangup]
          db := db }
      else
        let newLog : CallLog :=
          { business_id := business.id
            user_id := business.user_id
            call_sid := CallSid
            from_number := From
            to_number := To
            status := "ringing"
            transcript := []
            duration := none }
        let greeting := jsOrStr business.greeting
          ("Hello, you\x27ve reached " ++ business.business_name ++ ". How can I help you?")
        { twiml := [.say (some "Polly.Joanna") greeting,
                    .gather "speech"
                      ("/webhooks/twilio/gather?business_id=" ++ toString business.id
                        ++ "&call_sid=" ++ CallSid) "en-US",
                    .say (some "Polly.Joanna") "I didn\x27t catch that. Please say something or press any key.",
                    .redirect "/webhooks/twilio/voice"]
          db := { db with call_logs := db.call_logs ++ [newLog] } }

/-- The call_logs update of the status webhook: every row whose
call_sid matches gets the reported status and duration. -/
def updateLog (sid status : String) (dur : Int) (l : CallLog) : CallLog :=
  if l.call_sid == sid then { l with status := status, duration := some dur } else l

/-- The POST /webhooks/twilio/status handler.  It always updates the
matching call log with the reported status and `parseInt(CallDuration) || 0`;
when the status is completed and the duration is a truthy string
parsing to a positive number, it additionally looks the business up by
the To number and adds ceil(durationSec / 60) minutes to its usage. -/
def statusWebhook (db : DB) (CallSid CallStatus : String)
    (CallDuration : Option String) (To : String) : DB :=
  let durVal : Int := durValOf CallDuration
  let db1 : DB := { db with call_logs := db.call_logs.map (updateLog CallSid CallStatus durVal) }
  if CallStatus == "completed" && strTruthy CallDuration then
    match CallDuration with
    | none => db1
    | some d =>
      match parseIntJS d with
      | none => db1
      | some durationSec =>
        if durationSec > 0 then
          let minutesToAdd := (durationSec.toNat + 59) / 60
          match singleRow (fun b => b.twilio_phone_number == some To) db1.businesses with
          | none => db1
          | some business =>
            let newUsage := jsOrNat business.minutes_used 0 + minutesToAdd
            let upd := fun b =>
              if b.id == business.id then { b with minutes_used := some newUsage } else b
            { db1 with businesses := db1.businesses.map upd }
        else db1
  else db1

/-- Effective usage as the claim words it: minutes_used taken as 0 when
null (claim wording for C1; to be compared with the handler, which uses
JavaScript `|| 0`). -/
def c1SpecUsed (b : Business) : Nat := b.minutes_used.getD 0

/-- Effective limit as the claim words it: minutes_limit taken as 10
when null (claim wording for C1; the handler instead uses JavaScript
`|| 10`, which also replaces the value 0 by 10). -/
def c1SpecLimit (b : Business) : Nat := b.minutes_limit.getD 10

/-- A business whose minutes_limit is the (non-null) value 0. -/
def c1Biz : Business :=
  { id := 1, user_id := 7, business_name := "Acme Dental"
    services := "Cleaning", tone := "friendly", working_hours := "9 AM - 5 PM"
    greeting := none, twilio_phone_number := some "+15550001111"
    subscription_plan := none, minutes_used := none, minutes_limit := some 0 }

/-- A one-business database for the C1 counterexample. -/
def c1DB : DB := { businesses := [c1Biz], call_logs := [], payment_requests := [] }

/-- A business over its limit, for the blocked branch of C1. -/
def c1BizBlocked : Business :=
  { id := 2, user_id := 8, business_name := "Blocked Co"
    services := "Consulting", tone := "formal", working_hours := "9 AM - 5 PM"
    greeting := none, twilio_phone_number := some "+15550003333"
    subscription_plan := some "free", minutes_used := some 12, minutes_limit := some 10 }

/-- Database for the blocked branch of the C1 witness. -/
def c1DBBlocked : DB := { businesses := [c1BizBlocked], call_logs := [], payment_requests := [] }

/-- A business under its limit, for the proceeding branch of C1. -/
def c1BizOpen : Business :=
  { id := 3, user_id := 9, business_name := "Open Co"
    services := "Repairs", tone := "friendly", working_hours := "9 AM - 5 PM"
    greeting := some "Hi!", twilio_phone_number := some "+15550004444"
    subscription_plan := some "starter", minutes_used := some 3, minutes_limit := some 100 }

/-- Database for the proceeding branch of the C1 witness. -/
def c1DBOpen : DB := { businesses := [c1BizOpen], call_logs := [], payment_requests := [] }

/-- A business for the C2 witness. -/
def c2Biz : Business :=
  { id := 4, user_id := 11, business_name := "Status Co"
    services := "Plumbing", tone := "casual", working_hours := "9 AM - 5 PM"
    greeting := none, twilio_phone_number := some "+15550007777"
    subscription_plan := some "starter", minutes_used := some 5, minutes_limit := some 100 }

/-- Database for the C2 witness. -/
def c2DB : DB :=
  { businesses := [c2Biz]
    call_logs := [{ business_id := 4, user_id := 11, call_sid := "CA200",
                    from_number := "+15550008888", to_number := "+15550007777",
                    status := "ringing", transcript := [], duration := none }]
    payment_requests := [] }

/-- The limits dictionary of the first update block of
POST /api/admin/approve: `limits[request.plan] || 10`. -/
def approveLimits (plan : String) : Nat :=
  jsOrNat
    (match plan with
     | "starter" => some 100
     | "growth" => some 500
     | "pro" => some 2000
     | _ => none) 10

/-- Result of the approve handler: final database, the successive
values written to minutes_limit, and the HTTP status of the first
response sent. -/
structure ApproveResult where
  db : DB
  limitWrites : List Nat
  httpStatus : Nat
deriving Repr, DecidableEq

/-- The POST /api/admin/approve handler.  After marking the request
approved and applying the first limits table (100/500/2000 for
starter/growth/pro, else 10) it sends a success response, but the
handler body continues: a second block recomputes the limit with only
starter and pro cases (else 10) and updates the business again, so the
second value is the one that persists. -/
def approveHandler (db : DB) (requestId : Nat) : ApproveResult :=
  match singleRow (fun r => r.id == requestId) db.payment_requests with
  | none => { db := db, limitWrites := [], httpStatus := 404 }
  | some request =>
    if request.status == "approved" then
      { db := db, limitWrites := [], httpStatus := 400 }
    else
      let markApproved := fun (l : List PaymentRequest) => l.map
        (fun r => if r.id == requestId then { r with status := "approved" } else r)
      let db1 := { db with payment_requests := markApproved db.payment_requests }
      let newLimit := approveLimits request.plan
      let setPlan := fun (lim : Nat) (l : List Business) => l.map
        (fun b => if b.id == request.business_id then
          { b with subscription_plan := some request.plan, minutes_limit := some lim } else b)
      let db2 := { db1 with businesses := setPlan newLimit db1.businesses }
      let minutesLimit := 10
      let minutesLimit := if request.plan == "starter" then 100 else minutesLimit
      let minutesLimit := if request.plan == "pro" then 500 else minutesLimit
      let db3 := { db2 with businesses := setPlan minutesLimit db2.businesses }
      let db4 := { db3 with payment_requests := markApproved db3.payment_requests }
      { db := db4, limitWrites := [newLimit, minutesLimit], httpStatus := 200 }

/-- A businesses row for the C3 witness. -/
def c3Biz : Business :=
  { id := 21, user_id := 14, business_name := "Growth Co"
    services := "Marketing", tone := "casual", working_hours := "9 AM - 5 PM"
    greeting := none, twilio_phone_number := none, subscription_plan := some "free"
    minutes_used := some 0, minutes_limit := some 10 }

/-- A pending growth-plan payment request for the C3 witness. -/
def c3Req : PaymentRequest :=
  { id := 31, user_id := 14, email := none, business_id := 21
    plan := "growth", amount := 79, payment_method := "payoneer"
    payment_reference := "ref-001", status := "pending" }

/-- Database for the C3 witness. -/
def c3DB : DB := { businesses := [c3Biz], call_logs := [], payment_requests := [c3Req] }

/-- A message of the chat history sent by the client. -/
structure HMsg where
  role : String
  content : Option String
deriving Repr, DecidableEq

/-- A formatted history entry passed to the model (role plus the text
of its single part). -/
structure GMsg where
  role : String
  text : String
deriving Repr, DecidableEq

/-- The per-message formatting of the chat history: role assistant
becomes model, every other role becomes user, and the text is
`msg.content || the-empty-string`. -/
def toGeminiMsg (m : HMsg) : GMsg :=
  { role := if m.role == "assistant" then "model" else "user"
    text := jsOrStr m.content "" }

/-- History validation of the chat handler: a non-array history is
replaced by the empty list, each entry is formatted with toGeminiMsg,
and when the first formatted entry has role model a synthetic user
message is prepended so the history never starts with a model turn. -/
def formatHistory (history : Option (List HMsg)) : List GMsg :=
  let safeHistory := match history with | some l => l | none => []
  let formatted := safeHistory.map toGeminiMsg
  match formatted with
  | m :: _ =>
    if m.role == "model" then { role := "user", text := "Start conversation" } :: formatted
    else formatted
  | [] => formatted

/-- The configuration object the chat handler reads: either the inline
demo config of the request body or a businesses row; each field is
accessed through JavaScript truthiness, so all are Options. -/
structure ChatConfig where
  business_name : Option String
  name : Option String
  services : Option String
  working_hours : Option String
  workingHours : Option String
  tone : Option String
deriving Repr, DecidableEq

/-- A businesses row viewed as a chat configuration (fields the row
does not carry, such as name and workingHours, read as undefined). -/
def busConfig (b : Business) : ChatConfig :=
  { business_name := some b.business_name
    name := none
    services := some b.services
    working_hours := some b.working_hours
    workingHours := none
    tone := some b.tone }

/-- The system prompt the chat handler assembles, with the JavaScript
`||` fallbacks of the source template. -/
def chatSystemPrompt (config : ChatConfig) : String :=
  "You are an AI receptionist for \"" ++
    jsOrStr config.business_name (jsOrStr config.name "Business") ++ "\".\n\n" ++
  "BUSINESS DETAILS:\n" ++
  "- Services: " ++ jsOrStr config.services "General Inquiry" ++ "\n" ++
  "- Working Hours: " ++
    jsOrStr config.working_hours (jsOrStr config.workingHours "9 AM - 5 PM") ++ "\n" ++
  "- Tone: " ++ jsOrStr config.tone "professional" ++ "\n\n" ++
  "INSTRUCTIONS:\n" ++
  "1. You are talking to a customer.\n" ++
  "2. Answer strictly based on the business details.\n" ++
  "3. If asked about something not listed, say you don\x27t know but can take a message.\n" ++
  "4. Be " ++ jsOrStr config.tone "professional" ++ ".\n" ++
  "5. Keep responses concise (under 50 words) suitable for a chat interface.\n"

/-- The chat request body and headers. -/
structure ChatReq where
  hasBody : Bool
  config : Option ChatConfig
  authToken : Option String
  message : Option String
  history : Option (List HMsg)

/-- The external world of the chat handler: token validation by
supabase auth, the businesses table, and the chunk stream the model
produces for this request. -/
structure ChatEnv where
  userOf : String → Option Nat
  businesses : List Business
  modelChunks : List String

/-- The getUser helper: extract the bearer token and validate it;
null when the header or the user is missing. -/
def getUser (env : ChatEnv) (req : ChatReq) : Option Nat :=
  match req.authToken with
  | none => none
  | some t => env.userOf t

/-- The HTTP reply of the chat handler.  A chunked reply writes each
model chunk to the response as it arrives; a jsonBody reply buffers
the whole text and sends one JSON object. -/
inductive ChatRes where
  | badRequest (err : String)
  | unauthorized (err : String)
  | jsonBody (response : String)
  | chunked (chunks : List String)
deriving Repr, DecidableEq

/-- HTTP status code of a chat reply. -/
def ChatRes.statusCode : ChatRes → Nat
  | .badRequest _ => 400
  | .unauthorized _ => 401
  | .jsonBody _ => 200
  | .chunked _ => 200

/-- Whether a chat reply streams chunk by chunk. -/
def ChatRes.isChunked : ChatRes → Bool
  | .chunked _ => true
  | _ => false

/-- Observable outcome of the chat handler: the reply plus which
effects ran (auth check, database read, database write, model call)
and what was handed to the model. -/
structure ChatOut where
  res : ChatRes
  authChecked : Bool
  dbRead : Bool
  dbWrite : Bool
  modelCalled : Bool
  prompt : Option String
  sentHistory : Option (List GMsg)
deriving Repr, DecidableEq

/-- Shared tail of the chat handler once a configuration is in hand:
message validation, prompt and history assembly, the streaming model
call, and either the buffered JSON reply (demo) or the chunked reply
(authenticated). -/
def chatRespond (env : ChatEnv) (req : ChatReq) (config : ChatConfig)
    (isDemoMode authChecked dbRead : Bool) : ChatOut :=
  if !(strTruthy req.message) then
    { res := .badRequest "Message is required", authChecked := authChecked,
      dbRead := dbRead, dbWrite := false, modelCalled := false,
      prompt := none, sentHistory := none }
  else
    let systemPrompt := chatSystemPrompt config
    let formattedHistory := formatHistory req.history
    if isDemoMode then
      { res := .jsonBody (String.join env.modelChunks), authChecked := authChecked,
        dbRead := dbRead, dbWrite := false, modelCalled := true,
        prompt := some systemPrompt, sentHistory := some formattedHistory }
    else
      { res := .chunked env.modelChunks, authChecked := authChecked,
        dbRead := dbRead, dbWrite := false, modelCalled := true,
        prompt := some systemPrompt, sentHistory := some formattedHistory }

/-- The POST /api/chat handler.  A missing body is rejected; a present
inline config selects the unauthenticated demo flow; otherwise the
user is resolved from the bearer token (401 on failure; the separate
missing-token 401 of the source is unreachable because getUser already
failed without a token) and the businesses row is fetched (400 when
absent). -/
def chatHandler (env : ChatEnv) (req : ChatReq) : ChatOut :=
  if !req.hasBody then
    { res := .badRequest "Missing request body", authChecked := false,
      dbRead := false, dbWrite := false, modelCalled := false,
      prompt := none, sentHistory := none }
  else
    match req.config with
    | some config => chatRespond env req config true false false
    | none =>
      match getUser env req with
      | none =>
        { res := .unauthorized "Unauthorized", authChecked := true,
          dbRead := false, dbWrite := false, modelCalled := false,
          prompt := none, sentHistory := none }
      | some user =>
        match req.authToken with
        | none =>
          { res := .unauthorized "Missing token", authChecked := true,
            dbRead := false, dbWrite := false, modelCalled := false,
            prompt := none, sentHistory := none }
        | some _token =>
          match singleRow (fun b => b.user_id == user) env.businesses with
          | none =>
            { res := .badRequest "Business configuration not found", authChecked := true,
              dbRead := true, dbWrite := false, modelCalled := false,
              prompt := none, sentHistory := none }
          | some dbConfig => chatRespond env req (busConfig dbConfig) false true true

/-- Inline demo configuration for the C4 witness. -/
def c4Cfg : ChatConfig :=
  { business_name := none, name := some "Demo Biz", services := some "Haircuts"
    working_hours := none, workingHours := some "10 AM - 6 PM", tone := some "friendly" }

/-- Environment for the C4 witness. -/
def c4Env : ChatEnv :=
  { userOf := fun _ => none, businesses := [], modelChunks := ["Hel", "lo!"] }

/-- Demo-mode request for the C4 witness. -/
def c4Req : ChatReq :=
  { hasBody := true, config := some c4Cfg, authToken := none
    message := some "hi", history := none }

/-- Inline demo configuration for the C5 counterexample. -/
def c5Cfg : ChatConfig :=
  { business_name := some "Stream Co", name := none, services := some "Cuts"
    working_hours := some "9 AM - 5 PM", workingHours := none, tone := some "casual" }

/-- Environment for the C5 counterexample and witness. -/
def c5Env : ChatEnv :=
  { userOf := fun _ => none, businesses := [], modelChunks := ["Hel", "lo!"] }

/-- Demo-mode request for the C5 counterexample. -/
def c5Req : ChatReq :=
  { hasBody := true, config := some c5Cfg, authToken := none
    message := some "hi", history := none }

/-- A businesses row for the authenticated branch of the C5 witness. -/
def c5AuthBiz : Business :=
  { id := 6, user_id := 42, business_name := "Auth Co"
    services := "Tax advice", tone := "formal", working_hours := "9 AM - 5 PM"
    greeting := none, twilio_phone_number := none, subscription_plan := none
    minutes_used := none, minutes_limit := none }

/-- Environment for the authenticated branch of the C5 witness. -/
def c5AuthEnv : ChatEnv :=
  { userOf := fun t => if t = "tok123" then some 42 else none
    businesses := [c5AuthBiz], modelChunks := ["Wel", "come"] }

/-- Authenticated request for the C5 witness. -/
def c5AuthReq : ChatReq :=
  { hasBody := true, config := none, authToken := some "tok123"
    message := some "hello", history := none }

/-- Environment for the C7 witness: one valid token for user 7, an
empty businesses table. -/
def c7Env : ChatEnv :=
  { userOf := fun t => if t = "tok" then some 7 else none
    businesses := [], modelChunks := ["x"] }

/-- Bodyless request for the C7 witness. -/
def c7ReqNoBody : ChatReq :=
  { hasBody := false, config := none, authToken := none, message := none, history := none }

/-- Request with an invalid token for the C7 witness. -/
def c7ReqBadTok : ChatReq :=
  { hasBody := true, config := none, authToken := some "wrong"
    message := some "hi", history := none }

/-- Valid-token request whose user has no businesses row, for the C7
witness. -/
def c7ReqNoBiz : ChatReq :=
  { hasBody := true, config := none, authToken := some "tok"
    message := some "hi", history := none }

/-- Mutable state of the useAudioVAD interval loop (the three refs the
callback reads and writes). -/
structure VADState where
  isSpeaking : Bool
  speechStartTime : Int
  lastSpeechTime : Int
deriving Repr, DecidableEq

/-- Callbacks the VAD loop can invoke during one tick. -/
inductive VADEvent where
  | speechStart
  | speechEnd
deriving Repr, DecidableEq

/-- Whether the average normalized volume of a frequency buffer
exceeds the VOLUME_THRESHOLD of 0.05, that is
sum / bufferLength / 255 > 0.05, written as the equivalent integer
cross-multiplication (denominators positive; all quantities exact).
An empty buffer gives NaN in JavaScript, whose comparison is false;
here 20 * 0 > 255 * 0 is false as well.  The lemma vadAbove_iff_avg
below checks the equivalence with the rational form of the source. -/
def vadAbove (data : List Nat) : Bool :=
  decide (20 * data.sum > 255 * data.length)

/-- One tick of the 100 ms interval callback of useAudioVAD.  On a
loud sample it refreshes lastSpeechTime, starts the speaking state
(invoking onSpeechStart) if not yet speaking, then checks the 6000 ms
MAX_DURATION hard stop (which does not clear the speaking state).  On
a quiet sample it ends the speaking state (invoking onSpeechEnd) only
after more than SILENCE_THRESHOLD = 700 ms without a loud sample. -/
def vadStep (s : VADState) (now : Int) (data : List Nat) : VADState × List VADEvent :=
  if vadAbove data then
    let s1 := { s with lastSpeechTime := now }
    let started :=
      if !s.isSpeaking then
        ({ s1 with isSpeaking := true, speechStartTime := now }, [VADEvent.speechStart])
      else (s1, [])
    let hardStop := if now - started.1.speechStartTime > 6000 then [VADEvent.speechEnd] else []
    (started.1, started.2 ++ hardStop)
  else
    if s.isSpeaking then
      if now - s.lastSpeechTime > 700 then
        ({ s with isSpeaking := false }, [VADEvent.speechEnd])
      else (s, [])
    else (s, [])

/-- State set by startMonitoring before the interval starts: not
speaking, speechStartTime 0, lastSpeechTime the current time. -/
def vadInit (startTime : Int) : VADState :=
  { isSpeaking := false, speechStartTime := 0, lastSpeechTime := startTime }

/-- Run of the interval loop over (timestamp, buffer) samples,
collecting the events of each tick. -/
def vadRun : VADState → List (Int × List Nat) → VADState × List (List VADEvent)
  | s, [] => (s, [])
  | s, (t, d) :: rest =>
    let step := vadStep s t d
    let tail := vadRun step.1 rest
    (tail.1, step.2 :: tail.2)

/-- The onSpeechEnd condition as claim C6 words it, at the state the
loop holds when the sample arrives: in the speaking state, and either
more than 700 ms since the last above-threshold sample or more than
6000 ms since speech start. -/
def c6SpecEndFires (s : VADState) (now : Int) : Bool :=
  s.isSpeaking && (decide (now - s.lastSpeechTime > 700) || decide (now - s.speechStartTime > 6000))

/-- Sixty-one loud 100 ms samples: speech starts at t = 0 and the
loud samples run through t = 6000. -/
def c6LoudPrefix : List (Int × List Nat) :=
  (List.range 61).map (fun i => ((100 * (i : Int)), [255]))

/-- The VAD state after the loud prefix: speaking since t = 0, last
loud sample at t = 6000. -/
def c6StateBefore : VADState := (vadRun (vadInit 0) c6LoudPrefix).1

/-- Outcome Twilio-side of one fetch attempt: the promise resolves
with a response (of any HTTP status) or rejects. -/
inductive AttemptOutcome where
  | resolves (ok : Bool) (status : Nat)
  | rejects (err : String)
deriving Repr, DecidableEq

/-- Observable steps of authenticatedFetch: a fetch attempt armed with
an abort timeout, or a sleep between attempts. -/
inductive FetchEvent where
  | attempt (timeoutMs : Nat)
  | waited (ms : Nat)
deriving Repr, DecidableEq

/-- What authenticatedFetch does overall: return a response or throw. -/
inductive FetchResult where
  | success (ok : Bool) (status : Nat)
  | thrown (err : String)
deriving Repr, DecidableEq

/-- A run of authenticatedFetch: the events in order and the result. -/
structure FetchRun where
  events : List FetchEvent
  result : FetchResult
deriving Repr, DecidableEq

/-- Attempt-event test. -/
def isAttempt : FetchEvent → Bool
  | .attempt _ => true
  | _ => false

/-- Wait-event test. -/
def isWaited : FetchEvent → Bool
  | .waited _ => true
  | _ => false

/-- The retry loop of authenticatedFetch: attempt i of `retries`; a
resolving fetch returns its response whatever the status; a rejecting
fetch rethrows on the last allowed attempt and otherwise sleeps 3000 ms
and retries.  Each attempt is armed with a 20000 ms abort timeout.
The fuel argument only bounds the recursion; the loop itself stops at
`retries`, and the unreachable fall-through throw message of the source is
kept for the exhausted cases. -/
def fetchGo (oracle : Nat → AttemptOutcome) (retries : Nat) : Nat → Nat → FetchRun
  | _, 0 => { events := [], result := .thrown "Maximum retries reached" }
  | i, fuel + 1 =>
    if i < retries then
      match oracle i with
      | .resolves ok st => { events := [.attempt 20000], result := .success ok st }
      | .rejects e =>
        if i = retries - 1 then
          { events := [.attempt 20000], result := .thrown e }
        else
          let rest := fetchGo oracle retries (i + 1) fuel
          { events := .attempt 20000 :: .waited 3000 :: rest.events, result := rest.result }
    else { events := [], result := .thrown "Maximum retries reached" }

/-- The frontend authenticatedFetch helper with its default of 3
retries, abstracted over the per-attempt outcomes. -/
def authenticatedFetch (oracle : Nat → AttemptOutcome) : FetchRun :=
  fetchGo oracle 3 0 3

/-- Per-attempt outcomes for the C10 witness: the first attempt
rejects, the second resolves with a non-2xx 503 response. -/
def c10Oracle : Nat → AttemptOutcome :=
  fun i => if i = 0 then AttemptOutcome.rejects "timeout" else AttemptOutcome.resolves false 503

/-- C1 as stated is false: for a business with minutes_limit = 0 (a
non-null value), the reading of the claim (limit taken as 10 only when null)
makes usage 0 ≥ limit 0, so the claim demands the limit-reached reply
and no call_logs insert; the handler computes `0 || 10 = 10`, lets the
call proceed, inserts a ringing log and returns the greeting TwiML. -/
theorem c1_counterexample :
    singleRow (fun x => x.twilio_phone_number == some "+15550001111") c1DB.businesses = some c1Biz ∧
    c1SpecUsed c1Biz ≥ c1SpecLimit c1Biz ∧
    (voiceWebhook c1DB "+15550001111" "+15550002222" "CA100").db.call_logs ≠ [] ∧
    (voiceWebhook c1DB "+15550001111" "+15550002222" "CA100").twiml ≠
      [TwimlVerb.say none "I am sorry, this business has reached its monthly call limit. Please contact them via email or check their website.", TwimlVerb.hangup] := by
  refine ⟨by decide, by decide, by decide, by decide⟩

/-- C1 (amended): with minutes_used taken as 0 when null or zero and
minutes_limit taken as 10 when null or zero (JavaScript `||`), an
incoming call whose To number matches a business is blocked with the
monthly-limit TwiML and no call_logs insert when used ≥ limit, and
otherwise a ringing call_logs row is inserted and the greeting plus
speech gather TwiML is returned. -/
theorem c1_amended (db : DB) (To From CallSid : String) (b : Business)
    (hb : singleRow (fun x => x.twilio_phone_number == some To) db.businesses = some b) :
    (jsOrNat b.minutes_used 0 ≥ jsOrNat b.minutes_limit 10 →
      (voiceWebhook db To From CallSid).twiml =
        [TwimlVerb.say none "I am sorry, this business has reached its monthly call limit. Please contact them via email or check their website.", TwimlVerb.hangup] ∧
      (voiceWebhook db To From CallSid).db = db) ∧
    (jsOrNat b.minutes_used 0 < jsOrNat b.minutes_limit 10 →
      (voiceWebhook db To From CallSid).db.call_logs =
        db.call_logs ++ [{ business_id := b.id, user_id := b.user_id, call_sid := CallSid,
                           from_number := From, to_number := To, status := "ringing",
                           transcript := [], duration := none }] ∧
      (voiceWebhook db To From CallSid).db.businesses = db.businesses ∧
      (voiceWebhook db To From CallSid).db.payment_requests = db.payment_requests ∧
      (voiceWebhook db To From CallSid).twiml =
        [TwimlVerb.say (some "Polly.Joanna")
           (jsOrStr b.greeting ("Hello, you\x27ve reached " ++ b.business_name ++ ". How can I help you?")),
         TwimlVerb.gather "speech"
           ("/webhooks/twilio/gather?business_id=" ++ toString b.id ++ "&call_sid=" ++ CallSid) "en-US",
         TwimlVerb.say (some "Polly.Joanna") "I didn\x27t catch that. Please say something or press any key.",
         TwimlVerb.redirect "/webhooks/twilio/voice"]) := by
  simp only [voiceWebhook, hb]
  split
  · rename_i hge
    exact ⟨fun _ => ⟨rfl, rfl⟩, fun hlt => absurd hge (by omega)⟩
  · rename_i hnge
    exact ⟨fun hge => absurd hge hnge, fun _ => ⟨rfl, rfl, rfl, rfl⟩⟩

/-- Witness instantiating c1_amended on both branches. -/
theorem c1_amended_witness :
    (voiceWebhook c1DBBlocked "+15550003333" "+15550005555" "CA101").twiml =
      [TwimlVerb.say none "I am sorry, this business has reached its monthly call limit. Please contact them via email or check their website.", TwimlVerb.hangup] ∧
    (voiceWebhook c1DBOpen "+15550004444" "+15550005555" "CA102").db.call_logs =
      [{ business_id := 3, user_id := 9, call_sid := "CA102",
         from_number := "+15550005555", to_number := "+15550004444", status := "ringing",
         transcript := [], duration := none }] := by
  refine ⟨((c1_amended c1DBBlocked "+15550003333" "+15550005555" "CA101" c1BizBlocked (by decide)).1 (by decide)).1, ?_⟩
  have h := ((c1_amended c1DBOpen "+15550004444" "+15550005555" "CA102" c1BizOpen (by decide)).2 (by decide)).1
  simpa using h

/-- C8: when no business row carries the called Twilio number, the
voice webhook answers with the not-configured TwiML and a hangup and
leaves the database untouched. -/
theorem c8_unknown_number (db : DB) (To From CallSid : String)
    (h : ∀ b ∈ db.businesses, b.twilio_phone_number ≠ some To) :
    (voiceWebhook db To From CallSid).twiml =
      [TwimlVerb.say none "Sorry, this number is not configured.", TwimlVerb.hangup] ∧
    (voiceWebhook db To From CallSid).db = db := by
  have hfilter : db.businesses.filter (fun x => x.twilio_phone_number == some To) = [] := by
    rw [List.filter_eq_nil_iff]
    intro b hb
    simpa using h b hb
  have hs : singleRow (fun x => x.twilio_phone_number == some To) db.businesses = none := by
    simp [singleRow, hfilter]
  simp [voiceWebhook, hs]

/-- Witness instantiating c8_unknown_number on a concrete database. -/
theorem c8_unknown_number_witness :
    (voiceWebhook c1DBOpen "+15559990000" "+15550005555" "CA103").twiml =
      [TwimlVerb.say none "Sorry, this number is not configured.", TwimlVerb.hangup] ∧
    (voiceWebhook c1DBOpen "+15559990000" "+15550005555" "CA103").db = c1DBOpen :=
  c8_unknown_number c1DBOpen "+15559990000" "+15550005555" "CA103" (by decide)

/-- C2: a completed status callback with a truthy CallDuration parsing
to a positive number adds ceil(durationSec / 60) = (sec + 59) / 60
minutes to the matched business (minutes_used `|| 0` before the
addition); every other callback leaves businesses unchanged; and every
callback rewrites the matching call logs with the reported status and
`parseInt(CallDuration) || 0`. -/
theorem c2 (db : DB) (CallSid To : String) :
    (∀ (d : String) (n : Int) (b : Business), d ≠ "" → parseIntJS d = some n → 0 < n →
      singleRow (fun x => x.twilio_phone_number == some To) db.businesses = some b →
      (statusWebhook db CallSid "completed" (some d) To).businesses =
        db.businesses.map (fun x =>
          if x.id == b.id then { x with minutes_used := some (jsOrNat b.minutes_used 0 + (n.toNat + 59) / 60) } else x)) ∧
    (∀ (status : String) (dur : Option String),
      (status ≠ "completed" ∨ strTruthy dur = false ∨
        (∀ d, dur = some d → ∀ n : Int, parseIntJS d = some n → n ≤ 0)) →
      (statusWebhook db CallSid status dur To).businesses = db.businesses) ∧
    (∀ (status : String) (dur : Option String),
      (statusWebhook db CallSid status dur To).call_logs =
        db.call_logs.map (updateLog CallSid status (durValOf dur))) ∧
    (∀ (status : String) (dur : Option String),
      (statusWebhook db CallSid status dur To).payment_requests = db.payment_requests) := by
  refine ⟨?_, ?_, ?_, ?_⟩
  · intro d n b hd hparse hpos hb
    have htr : strTruthy (some d) = true := by simp [strTruthy, hd]
    simp only [statusWebhook, htr, hparse, hb, Bool.and_true, beq_self_eq_true, if_true]
    rw [if_pos hpos]
  · intro status dur h
    cases hcond : (status == "completed") with
    | false => simp [statusWebhook, hcond]
    | true =>
      have hstat : status = "completed" := by simpa using hcond
      cases dur with
      | none => simp [statusWebhook, hcond, strTruthy]
      | some d =>
        by_cases hd : d = ""
        · simp [statusWebhook, hcond, strTruthy, hd]
        · rcases h with h1 | h2 | h3
          · exact absurd hstat h1
          · exact absurd h2 (by simp [strTruthy, hd])
          · cases hp : parseIntJS d with
            | none => simp [statusWebhook, hcond, strTruthy, hd, hp]
            | some n =>
              have hn : ¬ (n > 0) := by have := h3 d rfl n hp; omega
              simp [statusWebhook, hcond, strTruthy, hd, hp, hn]
  · intro status dur
    simp only [statusWebhook]
    repeat' split
    all_goals rfl
  · intro status dur
    simp only [statusWebhook]
    repeat' split
    all_goals rfl

/-- Witness instantiating c2 on a completed 90-second call (adds
ceil(90 / 60) = 2 minutes to the 5 used), on a completed call whose
duration string 0x3C parses as hexadecimal 60 (adds ceil(60 / 60) = 1
minute, as parseInt radix auto-detection does in the handler), and on
a no-answer callback (usage unchanged). -/
theorem c2_witness :
    (statusWebhook c2DB "CA200" "completed" (some "90") "+15550007777").businesses =
      [{ c2Biz with minutes_used := some 7 }] ∧
    (statusWebhook c2DB "CA200" "completed" (some "0x3C") "+15550007777").businesses =
      [{ c2Biz with minutes_used := some 6 }] ∧
    (statusWebhook c2DB "CA200" "no-answer" none "+15550007777").businesses = c2DB.businesses := by
  refine ⟨?_, ?_, ?_⟩
  · have h := (c2 c2DB "CA200" "+15550007777").1 "90" 90 c2Biz (by decide) (by decide)
      (by decide) (by decide)
    exact h.trans (by decide)
  · have h := (c2 c2DB "CA200" "+15550007777").1 "0x3C" 60 c2Biz (by decide) (by decide)
      (by decide) (by decide)
    exact h.trans (by decide)
  · exact (c2 c2DB "CA200" "+15550007777").2.1 "no-answer" none (Or.inl (by decide))

/-- C3: approving a pending request writes minutes_limit twice; the
first write follows the 100/500/2000 table, the second (and final) one
is 100 for starter, 500 for pro and 10 for anything else, including
growth, and that second value is what every matching business row
holds afterwards. -/
theorem c3 (db : DB) (rid : Nat) (request : PaymentRequest)
    (hreq : singleRow (fun r => r.id == rid) db.payment_requests = some request)
    (hpending : request.status ≠ "approved") :
    (approveHandler db rid).httpStatus = 200 ∧
    (approveHandler db rid).limitWrites =
      [if request.plan = "starter" then 100 else if request.plan = "growth" then 500
         else if request.plan = "pro" then 2000 else 10,
       if request.plan = "starter" then 100 else if request.plan = "pro" then 500 else 10] ∧
    (∀ b ∈ (approveHandler db rid).db.businesses, b.id = request.business_id →
      b.minutes_limit = some (if request.plan = "starter" then 100
        else if request.plan = "pro" then 500 else 10)) := by
  have hst : (request.status == "approved") = false := by
    simpa using hpending
  simp only [approveHandler, hreq, hst, Bool.false_eq_true, if_false]
  refine ⟨trivial, ?_, ?_⟩
  · by_cases hs : request.plan = "starter" <;>
      by_cases hg : request.plan = "growth" <;>
      by_cases hp : request.plan = "pro" <;>
      simp_all [approveLimits, jsOrNat]
  · intro b hb hid
    simp only [List.mem_map] at hb
    obtain ⟨x, hx, hbx⟩ := hb
    by_cases hxid : (x.id == request.business_id) = true
    · subst hbx
      simp only [hxid, if_true]
      by_cases hs : request.plan = "starter" <;> by_cases hp : request.plan = "pro" <;>
        simp_all
    · exfalso
      rw [if_neg hxid] at hbx
      subst hbx
      exact hxid (by simpa using hid)

/-- Witness instantiating c3 on a growth-plan request: the first write
is 500, the second and surviving one is 10. -/
theorem c3_witness :
    (approveHandler c3DB 31).httpStatus = 200 ∧
    (approveHandler c3DB 31).limitWrites = [500, 10] ∧
    (∀ b ∈ (approveHandler c3DB 31).db.businesses, b.id = 21 → b.minutes_limit = some 10) := by
  have h := c3 c3DB 31 c3Req (by decide) (by decide)
  refine ⟨h.1, h.2.1.trans (by decide), ?_⟩
  intro b hb hid
  exact (h.2.2 b hb hid).trans (by decide)

/-- C4: a chat request carrying an inline config (Demo Mode) runs with
no auth check, no database read and no database write; when its
message is truthy the whole model output is buffered and returned as
one JSON body, with the system prompt built from the inline config;
and the authenticated path is entered only when the config is absent. -/
theorem c4 (env : ChatEnv) (req : ChatReq) (c : ChatConfig)
    (hb : req.hasBody = true) (hc : req.config = some c) :
    (chatHandler env req).authChecked = false ∧
    (chatHandler env req).dbRead = false ∧
    (chatHandler env req).dbWrite = false ∧
    (strTruthy req.message = true →
      (chatHandler env req).res = ChatRes.jsonBody (String.join env.modelChunks) ∧
      (chatHandler env req).modelCalled = true ∧
      (chatHandler env req).prompt = some (chatSystemPrompt c)) ∧
    (∀ (env2 : ChatEnv) (req2 : ChatReq),
      (chatHandler env2 req2).authChecked = true → req2.config = none) := by
  refine ⟨?_, ?_, ?_, ?_, ?_⟩
  · simp only [chatHandler, hb, hc, Bool.not_true, Bool.false_eq_true, if_false]
    cases hm : strTruthy req.message <;> simp [chatRespond, hm]
  · simp only [chatHandler, hb, hc, Bool.not_true, Bool.false_eq_true, if_false]
    cases hm : strTruthy req.message <;> simp [chatRespond, hm]
  · simp only [chatHandler, hb, hc, Bool.not_true, Bool.false_eq_true, if_false]
    cases hm : strTruthy req.message <;> simp [chatRespond, hm]
  · intro hm
    simp [chatHandler, hb, hc, chatRespond, hm]
  · intro env2 req2 h
    cases hcfg : req2.config with
    | none => rfl
    | some cfg =>
      exfalso
      by_cases hbody : req2.hasBody = true
      · have hfalse : (chatHandler env2 req2).authChecked = false := by
          simp only [chatHandler, hbody, hcfg, Bool.not_true, Bool.false_eq_true, if_false]
          cases hm : strTruthy req2.message <;> simp [chatRespond, hm]
        exact Bool.noConfusion (h.symm.trans hfalse)
      · have hb2 : req2.hasBody = false := by simpa using hbody
        have hfalse : (chatHandler env2 req2).authChecked = false := by
          simp [chatHandler, hb2]
        exact Bool.noConfusion (h.symm.trans hfalse)

/-- Witness instantiating c4 on a concrete demo request. -/
theorem c4_witness :
    (chatHandler c4Env c4Req).authChecked = false ∧
    (chatHandler c4Env c4Req).dbRead = false ∧
    (chatHandler c4Env c4Req).res = ChatRes.jsonBody "Hello!" := by
  have h := c4 c4Env c4Req c4Cfg rfl rfl
  exact ⟨h.1, h.2.1, (h.2.2.2.1 (by decide)).1.trans (by decide)⟩

/-- C5 as stated is false: a successful demo-mode chat request (model
called, HTTP 200) is answered with one buffered JSON body, not with a
chunk-by-chunk stream. -/
theorem c5_counterexample :
    (chatHandler c5Env c5Req).modelCalled = true ∧
    (chatHandler c5Env c5Req).res.statusCode = 200 ∧
    (chatHandler c5Env c5Req).res = ChatRes.jsonBody "Hello!" ∧
    (chatHandler c5Env c5Req).res.isChunked = false := by
  decide

/-- C5 (amended): a successful authenticated chat request streams the
model chunks one by one with the system prompt assembled from the
business row; a successful demo-mode request instead buffers the
chunks into a single JSON reply built from the inline config. -/
theorem c5_amended (env : ChatEnv) (req : ChatReq)
    (hb : req.hasBody = true) (hm : strTruthy req.message = true) :
    (∀ (t : String) (u : Nat) (biz : Business),
      req.config = none → req.authToken = some t → env.userOf t = some u →
      singleRow (fun b => b.user_id == u) env.businesses = some biz →
      (chatHandler env req).res = ChatRes.chunked env.modelChunks ∧
      (chatHandler env req).prompt = some (chatSystemPrompt (busConfig biz)) ∧
      (chatHandler env req).modelCalled = true) ∧
    (∀ c : ChatConfig, req.config = some c →
      (chatHandler env req).res = ChatRes.jsonBody (String.join env.modelChunks) ∧
      (chatHandler env req).prompt = some (chatSystemPrompt c) ∧
      (chatHandler env req).modelCalled = true) := by
  constructor
  · intro t u biz hc ht hu hbiz
    simp [chatHandler, hb, hc, getUser, ht, hu, hbiz, chatRespond, hm]
  · intro c hc
    simp [chatHandler, hb, hc, chatRespond, hm]

/-- Witness instantiating c5_amended on both flows. -/
theorem c5_amended_witness :
    (chatHandler c5AuthEnv c5AuthReq).res = ChatRes.chunked ["Wel", "come"] ∧
    (chatHandler c5Env c5Req).res = ChatRes.jsonBody "Hello!" := by
  constructor
  · have h := (c5_amended c5AuthEnv c5AuthReq rfl (by decide)).1 "tok123" 42 c5AuthBiz
      rfl rfl (by decide) (by decide)
    exact h.1.trans (by decide)
  · have h := (c5_amended c5Env c5Req rfl (by decide)).2 c5Cfg rfl
    exact h.1.trans (by decide)

/-- C7: the chat handler rejects a missing body with 400, a missing
message with 400 (in both flows), a failed token validation with 401
and a missing businesses row with 400, and in each of these cases the
model is never called. -/
theorem c7 (env : ChatEnv) (req : ChatReq) :
    (req.hasBody = false →
      (chatHandler env req).res.statusCode = 400 ∧ (chatHandler env req).modelCalled = false) ∧
    (∀ c : ChatConfig, req.hasBody = true → req.config = some c →
      strTruthy req.message = false →
      (chatHandler env req).res.statusCode = 400 ∧ (chatHandler env req).modelCalled = false) ∧
    (req.hasBody = true → req.config = none → getUser env req = none →
      (chatHandler env req).res.statusCode = 401 ∧ (chatHandler env req).modelCalled = false) ∧
    (∀ (t : String) (u : Nat), req.hasBody = true → req.config = none →
      req.authToken = some t → env.userOf t = some u →
      singleRow (fun b => b.user_id == u) env.businesses = none →
      (chatHandler env req).res.statusCode = 400 ∧ (chatHandler env req).modelCalled = false) ∧
    (∀ (t : String) (u : Nat) (biz : Business), req.hasBody = true → req.config = none →
      req.authToken = some t → env.userOf t = some u →
      singleRow (fun b => b.user_id == u) env.businesses = some biz →
      strTruthy req.message = false →
      (chatHandler env req).res.statusCode = 400 ∧ (chatHandler env req).modelCalled = false) := by
  refine ⟨?_, ?_, ?_, ?_, ?_⟩
  · intro hb
    simp [chatHandler, hb, ChatRes.statusCode]
  · intro c hb hc hm
    simp [chatHandler, hb, hc, chatRespond, hm, ChatRes.statusCode]
  · intro hb hc hu
    simp [chatHandler, hb, hc, hu, ChatRes.statusCode]
  · intro t u hb hc ht hu hbiz
    simp [chatHandler, hb, hc, getUser, ht, hu, hbiz, ChatRes.statusCode]
  · intro t u biz hb hc ht hu hbiz hm
    simp [chatHandler, hb, hc, getUser, ht, hu, hbiz, chatRespond, hm, ChatRes.statusCode]

/-- Witness instantiating three validation branches of c7. -/
theorem c7_witness :
    (chatHandler c7Env c7ReqNoBody).res.statusCode = 400 ∧
    (chatHandler c7Env c7ReqBadTok).res.statusCode = 401 ∧
    (chatHandler c7Env c7ReqNoBiz).res.statusCode = 400 ∧
    (chatHandler c7Env c7ReqNoBiz).modelCalled = false := by
  refine ⟨((c7 c7Env c7ReqNoBody).1 rfl).1,
          ((c7 c7Env c7ReqBadTok).2.2.1 rfl rfl (by decide)).1, ?_, ?_⟩
  · exact ((c7 c7Env c7ReqNoBiz).2.2.2.1 "tok" 7 rfl rfl rfl (by decide) (by decide)).1
  · exact ((c7 c7Env c7ReqNoBiz).2.2.2.1 "tok" 7 rfl rfl rfl (by decide) (by decide)).2

/-- C9: the history formatting maps assistant to model and everything
else to user, treats a non-array history as empty, prepends the
synthetic user message exactly when the first mapped entry has role
model, never yields a history starting with a model turn, and is what
the handler hands to the model whenever the model is called. -/
theorem c9 :
    (∀ m : HMsg, (toGeminiMsg m).role = if m.role = "assistant" then "model" else "user") ∧
    (formatHistory none = []) ∧
    (∀ l : List HMsg,
      formatHistory (some l) = l.map toGeminiMsg ∨
      formatHistory (some l) =
        { role := "user", text := "Start conversation" } :: l.map toGeminiMsg) ∧
    (∀ l : List HMsg,
      formatHistory (some l) =
          { role := "user", text := "Start conversation" } :: l.map toGeminiMsg ↔
        ∃ (m : GMsg) (rest : List GMsg), l.map toGeminiMsg = m :: rest ∧ m.role = "model") ∧
    (∀ (h : Option (List HMsg)) (m : GMsg) (rest : List GMsg),
      formatHistory h = m :: rest → m.role ≠ "model") ∧
    (∀ (env : ChatEnv) (req : ChatReq) (cfg : ChatConfig) (isDemo a d : Bool),
      (chatRespond env req cfg isDemo a d).modelCalled = true →
      (chatRespond env req cfg isDemo a d).sentHistory = some (formatHistory req.history)) := by
  refine ⟨?_, rfl, ?_, ?_, ?_, ?_⟩
  · intro m
    by_cases hr : m.role = "assistant" <;> simp [toGeminiMsg, hr]
  · intro l
    cases hl : l.map toGeminiMsg with
    | nil => left; simp [formatHistory, hl]
    | cons m rest =>
      by_cases hm : m.role = "model"
      · right; simp [formatHistory, hl, hm]
      · left; simp [formatHistory, hl, hm]
  · intro l
    constructor
    · intro heq
      cases hl : l.map toGeminiMsg with
      | nil =>
        exfalso
        have hfh : formatHistory (some l) = [] := by simp [formatHistory, hl]
        rw [hfh, hl] at heq
        exact List.noConfusion heq
      | cons m rest =>
        by_cases hm : m.role = "model"
        · exact ⟨m, rest, rfl, hm⟩
        · exfalso
          have hfh : formatHistory (some l) = m :: rest := by simp [formatHistory, hl, hm]
          rw [hfh, hl] at heq
          have := congrArg List.length heq
          simp at this
    · rintro ⟨m, rest, hl, hm⟩
      simp [formatHistory, hl, hm]
  · intro h m rest heq hrole
    cases h with
    | none => exact absurd heq (by simp [formatHistory])
    | some l =>
      cases hl : l.map toGeminiMsg with
      | nil =>
        have hfh : formatHistory (some l) = [] := by simp [formatHistory, hl]
        rw [hfh] at heq
        exact List.noConfusion heq
      | cons m0 r0 =>
        by_cases hm0 : m0.role = "model"
        · have hfh : formatHistory (some l) =
              { role := "user", text := "Start conversation" } :: m0 :: r0 := by
            simp [formatHistory, hl, hm0]
          rw [hfh] at heq
          injection heq with h1 h2
          rw [← h1] at hrole
          simp at hrole
        · have hfh : formatHistory (some l) = m0 :: r0 := by
            simp [formatHistory, hl, hm0]
          rw [hfh] at heq
          injection heq with h1 h2
          rw [← h1] at hrole
          exact hm0 hrole
  · intro env req cfg isDemo a d h
    cases hm : strTruthy req.message with
    | false => exact absurd h (by simp [chatRespond, hm])
    | true => cases isDemo <;> simp [chatRespond, hm]

/-- Witness instantiating c9: a history starting with an assistant
turn maps to a model turn and gets the synthetic user message
prepended, and the resulting head is not a model turn. -/
theorem c9_witness :
    formatHistory (some [{ role := "assistant", content := some "Hi" }]) =
      [{ role := "user", text := "Start conversation" }, { role := "model", text := "Hi" }] ∧
    ({ role := "user", text := "Start conversation" } : GMsg).role ≠ "model" := by
  have h1 := (c9.2.2.2.1 [{ role := "assistant", content := some "Hi" }]).mpr
    ⟨{ role := "model", text := "Hi" }, [], by decide, rfl⟩
  refine ⟨h1.trans (by decide), ?_⟩
  exact c9.2.2.2.2.1 (some [{ role := "assistant", content := some "Hi" }])
    { role := "user", text := "Start conversation" }
    [{ role := "model", text := "Hi" }] (h1.trans (by decide))

/-- vadAbove is exactly the source comparison
sum / bufferLength / 255 > 0.05 over exact rationals (with 0 / 0 = 0
standing in for the false-comparing NaN of the empty buffer). -/
theorem vadAbove_iff_avg (data : List Nat) :
    vadAbove data = true ↔ (5 / 100 : ℚ) < (data.sum : ℚ) / (data.length : ℚ) / 255 := by
  unfold vadAbove
  rw [decide_eq_true_eq]
  cases data with
  | nil => norm_num
  | cons x xs =>
    have hl : (0 : ℚ) < ((x :: xs).length : ℚ) := by
      have h : 0 < (x :: xs).length := Nat.succ_pos _
      exact_mod_cast h
    rw [div_div, div_lt_div_iff₀ (by norm_num) (mul_pos hl (by norm_num))]
    constructor
    · intro h
      have h2 : (255 : ℚ) * ((x :: xs).length : ℚ) < 20 * ((x :: xs).sum : ℚ) := by
        exact_mod_cast h
      linarith
    · intro h
      have h2 : (255 : ℚ) * ((x :: xs).length : ℚ) < 20 * ((x :: xs).sum : ℚ) := by
        linarith
      exact_mod_cast h2

set_option maxRecDepth 100000 in
/-- C6 as stated is false: at the quiet sample at t = 6100 the loop is
in the speaking state with more than 6000 ms since speech start, so
the claim demands an onSpeechEnd (hard stop); the code only evaluates
the MAX_DURATION check on above-threshold samples, and the silence
timeout (100 ms since the last loud sample) has not elapsed either, so
no event fires. -/
theorem c6_counterexample :
    c6StateBefore.isSpeaking = true ∧
    c6StateBefore.speechStartTime = 0 ∧
    c6StateBefore.lastSpeechTime = 6000 ∧
    c6SpecEndFires c6StateBefore 6100 = true ∧
    vadAbove [0] = false ∧
    (vadStep c6StateBefore 6100 [0]).2 = [] := by
  decide

/-- C6 (amended): per 100 ms sample, onSpeechStart fires exactly when
the average volume exceeds 0.05 while not speaking; onSpeechEnd fires
exactly when either the sample is above threshold, the state is
speaking and more than 6000 ms have passed since speech start (hard
stop, which leaves the speaking state set), or the sample is below
threshold, the state is speaking and more than 700 ms have passed
since the last above-threshold sample (silence end, which clears the
speaking state). -/
theorem c6_amended (s : VADState) (now : Int) (data : List Nat) :
    (VADEvent.speechStart ∈ (vadStep s now data).2 ↔
      vadAbove data = true ∧ s.isSpeaking = false) ∧
    (VADEvent.speechEnd ∈ (vadStep s now data).2 ↔
      ((vadAbove data = true ∧ s.isSpeaking = true ∧ now - s.speechStartTime > 6000) ∨
       (vadAbove data = false ∧ s.isSpeaking = true ∧ now - s.lastSpeechTime > 700))) ∧
    ((vadStep s now data).1.isSpeaking =
      (vadAbove data || (s.isSpeaking && !(decide (now - s.lastSpeechTime > 700))))) := by
  simp only [vadStep]
  split_ifs <;> simp_all

/-- C10: authenticatedFetch makes at most 3 attempts, each with a
20000 ms abort timeout, sleeping 3000 ms after each failed non-final
attempt; the first resolving attempt is returned whatever its HTTP
status; and a throw happens only when all three attempts reject, with
the error of the third rejection. -/
theorem c10 (oracle : Nat → AttemptOutcome) :
    ((authenticatedFetch oracle).events.countP isAttempt ≤ 3) ∧
    (∀ t, FetchEvent.attempt t ∈ (authenticatedFetch oracle).events → t = 20000) ∧
    (∀ w, FetchEvent.waited w ∈ (authenticatedFetch oracle).events → w = 3000) ∧
    (∀ (k : Nat) (ok : Bool) (st : Nat), k < 3 →
      (∀ j, j < k → ∃ e, oracle j = AttemptOutcome.rejects e) →
      oracle k = AttemptOutcome.resolves ok st →
      (authenticatedFetch oracle).result = FetchResult.success ok st ∧
      (authenticatedFetch oracle).events.countP isAttempt = k + 1 ∧
      (authenticatedFetch oracle).events.countP isWaited = k) ∧
    (∀ e, (authenticatedFetch oracle).result = FetchResult.thrown e →
      oracle 2 = AttemptOutcome.rejects e ∧
      (∀ j, j < 3 → ∃ x, oracle j = AttemptOutcome.rejects x)) := by
  cases h0 : oracle 0 with
  | resolves ok0 st0 =>
    have hrun : authenticatedFetch oracle =
        { events := [FetchEvent.attempt 20000], result := FetchResult.success ok0 st0 } := by
      simp [authenticatedFetch, fetchGo, h0]
    rw [hrun]
    refine ⟨by simp [isAttempt], by simp, by simp [isWaited], ?_, by simp⟩
    intro k ok st hk hrej hres
    interval_cases k
    · rw [h0] at hres
      injection hres with hok hst
      subst hok; subst hst
      exact ⟨rfl, by simp [isAttempt], by simp [isWaited]⟩
    · obtain ⟨e, he⟩ := hrej 0 (by omega)
      rw [h0] at he
      exact AttemptOutcome.noConfusion he
    · obtain ⟨e, he⟩ := hrej 0 (by omega)
      rw [h0] at he
      exact AttemptOutcome.noConfusion he
  | rejects e0 =>
    cases h1 : oracle 1 with
    | resolves ok1 st1 =>
      have hrun : authenticatedFetch oracle =
          { events := [FetchEvent.attempt 20000, FetchEvent.waited 3000, FetchEvent.attempt 20000],
            result := FetchResult.success ok1 st1 } := by
        simp [authenticatedFetch, fetchGo, h0, h1]
      rw [hrun]
      refine ⟨by simp [isAttempt], by simp, by simp [isWaited], ?_, by simp⟩
      intro k ok st hk hrej hres
      interval_cases k
      · rw [h0] at hres
        exact AttemptOutcome.noConfusion hres
      · rw [h1] at hres
        injection hres with hok hst
        subst hok; subst hst
        exact ⟨rfl, by simp [isAttempt, isWaited], by simp [isAttempt, isWaited]⟩
      · obtain ⟨e, he⟩ := hrej 1 (by omega)
        rw [h1] at he
        exact AttemptOutcome.noConfusion he
    | rejects e1 =>
      cases h2 : oracle 2 with
      | resolves ok2 st2 =>
        have hrun : authenticatedFetch oracle =
            { events := [FetchEvent.attempt 20000, FetchEvent.waited 3000,
                         FetchEvent.attempt 20000, FetchEvent.waited 3000,
                         FetchEvent.attempt 20000],
              result := FetchResult.success ok2 st2 } := by
          simp [authenticatedFetch, fetchGo, h0, h1, h2]
        rw [hrun]
        refine ⟨by simp [isAttempt, isWaited], by simp, by simp [isWaited], ?_, by simp⟩
        intro k ok st hk hrej hres
        interval_cases k
        · rw [h0] at hres
          exact AttemptOutcome.noConfusion hres
        · rw [h1] at hres
          exact AttemptOutcome.noConfusion hres
        · rw [h2] at hres
          injection hres with hok hst
          subst hok; subst hst
          exact ⟨rfl, by simp [isAttempt, isWaited], by simp [isAttempt, isWaited]⟩
      | rejects e2 =>
        have hrun : authenticatedFetch oracle =
            { events := [FetchEvent.attempt 20000, FetchEvent.waited 3000,
                         FetchEvent.attempt 20000, FetchEvent.waited 3000,
                         FetchEvent.attempt 20000],
              result := FetchResult.thrown e2 } := by
          simp [authenticatedFetch, fetchGo, h0, h1, h2]
        rw [hrun]
        refine ⟨by simp [isAttempt, isWaited], by simp, by simp [isWaited], ?_, ?_⟩
        · intro k ok st hk hrej hres
          interval_cases k
          · rw [h0] at hres
            exact AttemptOutcome.noConfusion hres
          · rw [h1] at hres
            exact AttemptOutcome.noConfusion hres
          · rw [h2] at hres
            exact AttemptOutcome.noConfusion hres
        · intro e he
          injection he with he2
          subst he2
          refine ⟨rfl, ?_⟩
          intro j hj
          interval_cases j
          · exact ⟨e0, h0⟩
          · exact ⟨e1, h1⟩
          · exact ⟨e2, h2⟩

/-- Witness instantiating c10: the rejected first attempt is retried
after a wait, and the 503 response of the second attempt is returned
as-is. -/
theorem c10_witness :
    (authenticatedFetch c10Oracle).result = FetchResult.success false 503 ∧
    (authenticatedFetch c10Oracle).events.countP isAttempt = 2 ∧
    (authenticatedFetch c10Oracle).events.countP isWaited = 1 := by
  have h := (c10 c10Oracle).2.2.2.1 1 false 503 (by omega)
    (by
      intro j hj
      interval_cases j
      exact ⟨"timeout", rfl⟩)
    (by decide)
  exact ⟨h.1, h.2.1, h.2.2⟩

end SmartReception
